import Mathlib

/-!
A verification development for the dictara dictation core.

The definitions below are shallow embeddings of the Rust sources:
  - `src-tauri/src/recording/state_manager.rs` (recording state machine)
  - `src-tauri/src/config.rs`                  (shortcut matching / validation)
  - `src-tauri/src/keyboard_listener.rs`       (normal-mode key handling)
  - `src-tauri/src/recording/vad.rs`           (Silero VAD and smoothing wrapper)
  - `src-tauri/src/recording/audio_recorder.rs` (VAD framing of mono samples)
  - `src-tauri/src/clients/transcriber.rs`     (transcription pre-call validation)
  - `src-tauri/src/models/loader.rs`           (local model loader / swap race)
  - `src-tauri/src/text_paster.rs` and `src-tauri/src/clipboard_paste.rs` (paste)

External effects (the ONNX session, the file system, the clipboard, foreign
threads, HTTP backends) are modelled as explicit function parameters, so every
definition stays computable and the control flow of the Rust code is preserved
verbatim.  Machine integers that never overflow on the modelled paths are
embedded as `Nat`; `f32` audio samples are carried opaquely as `Int` (none of
the modelled code paths computes on sample values, it only moves them around),
and neural-net probabilities as `Rat`.
-/

namespace Dictara

/-! ## Recording state machine (`recording/state_manager.rs`) -/

/-- `RecordingEvent` from `state_manager.rs`. -/
inductive RecordingEvent where
  | start
  | stop
  | lock
  | cancel
  | retry
  deriving DecidableEq, Repr

/-- `RecordingAction` from `state_manager.rs`. -/
inductive RecordingAction where
  | startRecording
  | stopAndTranscribe
  | cancelRecording
  | retryTranscription
  deriving DecidableEq, Repr

/-- `RecordingState` from `state_manager.rs`. -/
inductive RecordingState where
  | ready
  | recording
  | recordingLocked
  | transcribing
  deriving DecidableEq, Repr

/-- `RecordingState::is_busy`. -/
def RecordingState.isBusy (s : RecordingState) : Bool :=
  s ≠ RecordingState.ready

/-- `RecordingStateManager::compute_transition` (state_manager.rs:151-198),
translated case by case.  `none` means the event is rejected. -/
def computeTransition (current : RecordingState) (event : RecordingEvent) :
    Option (RecordingState × Option RecordingAction) :=
  match current with
  | .ready =>
      match event with
      | .start => some (.recording, some .startRecording)
      | .retry => some (.transcribing, some .retryTranscription)
      | _ => none
  | .recording =>
      match event with
      | .stop => some (.transcribing, some .stopAndTranscribe)
      | .lock => some (.recordingLocked, none)
      | .cancel => some (.ready, some .cancelRecording)
      | _ => none
  | .recordingLocked =>
      match event with
      | .start => some (.transcribing, some .stopAndTranscribe)
      | .cancel => some (.ready, some .cancelRecording)
      | _ => none
  | .transcribing => none

/-- Modelled from the spec: the section 4.4 transition table, written down
independently of `computeTransition` so the two can be compared cell by cell
(the five-event columns; `TranscriptionComplete/Failed` are not
`RecordingEvent`s in the code). -/
def specTransitionTable (current : RecordingState) (event : RecordingEvent) :
    Option (RecordingState × Option RecordingAction) :=
  match current, event with
  | .ready, .start => some (.recording, some .startRecording)
  | .ready, .retry => some (.transcribing, some .retryTranscription)
  | .recording, .stop => some (.transcribing, some .stopAndTranscribe)
  | .recording, .lock => some (.recordingLocked, none)
  | .recording, .cancel => some (.ready, some .cancelRecording)
  | .recordingLocked, .start => some (.transcribing, some .stopAndTranscribe)
  | .recordingLocked, .stop => some (.transcribing, some .stopAndTranscribe)
  | .recordingLocked, .cancel => some (.ready, some .cancelRecording)
  | _, _ => none

/-! ## Shortcuts (`config.rs`) -/

/-- `ShortcutKey` from `config.rs`. -/
structure ShortcutKey where
  keycode : Nat
  label : String
  deriving DecidableEq, Repr

/-- `Shortcut` from `config.rs`. -/
structure Shortcut where
  keys : List ShortcutKey
  deriving DecidableEq, Repr

/-- `Shortcut::matches` (config.rs:88-92): exact match — same count AND all
keys present in the pressed-key set. -/
def Shortcut.matches (s : Shortcut) (pressedKeys : Finset Nat) : Bool :=
  decide (s.keys.length = pressedKeys.card) &&
    s.keys.all (fun k => decide (k.keycode ∈ pressedKeys))

/-- The duplicate scan of `Shortcut::validate`: walk the key list with a seen
set, returning the first key whose keycode was already seen. -/
def firstDuplicate : List ShortcutKey → Finset Nat → Option ShortcutKey
  | [], _ => none
  | k :: rest, seen =>
      if k.keycode ∈ seen then some k else firstDuplicate rest (insert k.keycode seen)

/-- `Shortcut::validate` (config.rs:94-106). -/
def Shortcut.validate (s : Shortcut) : Except String Unit :=
  if s.keys.isEmpty || s.keys.length > 3 then
    Except.error "Shortcut must have 1-3 keys"
  else
    match firstDuplicate s.keys ∅ with
    | some k => Except.error ("Duplicate key: " ++ k.label)
    | none => Except.ok ()

/-- The set of keycodes of a shortcut. -/
def Shortcut.keycodes (s : Shortcut) : Finset Nat :=
  (s.keys.map ShortcutKey.keycode).toFinset

/-- `ShortcutsConfig` from `config.rs`. -/
structure ShortcutsConfig where
  pushToRecord : Shortcut
  handsFree : Shortcut
  deriving DecidableEq, Repr

/-- `ShortcutsConfig::default` (config.rs:119-145): push-to-record is the Fn
key (macOS keycode 63), hands-free is Fn+Space (keycodes 63 and 49). -/
def defaultShortcuts : ShortcutsConfig :=
  { pushToRecord := { keys := [{ keycode := 63, label := "Fn" }] }
    handsFree := { keys := [{ keycode := 63, label := "Fn" },
                            { keycode := 49, label := "Space" }] } }

/-! ## Keyboard listener, normal mode (`keyboard_listener.rs`) -/

/-- `RecordingCommand` from `recording/commands.rs`. -/
inductive RecordingCommand where
  | startRecording
  | stopRecording
  | lockRecording
  | cancel
  | retryTranscription
  deriving DecidableEq, Repr

/-- A key event as seen by the listener callback, after
`key.to_macos_keycode()`: press or release of a keycode. -/
inductive KeyEvent where
  | press (keycode : Nat)
  | release (keycode : Nat)
  deriving DecidableEq, Repr

/-- Modelled from the spec: `RecordingStateManager::is_recording_locked`,
which `keyboard_listener.rs` calls but whose definition is not under `src/`.
Per section 4.3 the listener distinguishes exactly the `RecordingLocked`
state ("push-to-talk can end hands-free"), mirroring the sibling accessor
`is_recording` (state_manager.rs:115). -/
def RecordingState.isRecordingLocked (s : RecordingState) : Bool :=
  s = RecordingState.recordingLocked

/-- Result of one callback invocation of `KeyListener::handle_normal_mode`:
the pass-through decision (`none` = suppressed), the updated pressed-key set,
and the recording commands sent on the channel, in order. -/
structure ListenerStep where
  passThrough : Option KeyEvent
  pressedKeys : Finset Nat
  commands : List RecordingCommand
  deriving DecidableEq

/-- `KeyListener::handle_normal_mode` (keyboard_listener.rs:102-170), with the
recording state read through `is_recording_locked` supplied as the current
`RecordingState`.  Control flow is translated line by line, including the
early `return None` that swallows Space when it completes the hands-free
combo. -/
def handleNormalMode (shortcuts : ShortcutsConfig) (state : RecordingState)
    (pressedKeys : Finset Nat) (event : KeyEvent) : ListenerStep :=
  match event with
  | .press keycode =>
      let wasPushToRecord := shortcuts.pushToRecord.matches pressedKeys
      let wasHandsFree := shortcuts.handsFree.matches pressedKeys
      let pressed' := insert keycode pressedKeys
      let ptrCmds : List RecordingCommand :=
        if !wasPushToRecord && shortcuts.pushToRecord.matches pressed' then
          if state.isRecordingLocked then [.stopRecording] else [.startRecording]
        else []
      let hfRising := !wasHandsFree && shortcuts.handsFree.matches pressed'
      let hfCmds : List RecordingCommand :=
        if hfRising then
          if state.isRecordingLocked then [.stopRecording]
          else [.startRecording, .lockRecording]
        else []
      let cmds := ptrCmds ++ hfCmds
      if hfRising && shortcuts.handsFree.keys.any (fun k => k.keycode == 49) then
        { passThrough := none, pressedKeys := pressed', commands := cmds }
      else if shortcuts.pushToRecord.matches pressed' then
        { passThrough := none, pressedKeys := pressed', commands := cmds }
      else
        { passThrough := some event, pressedKeys := pressed', commands := cmds }
  | .release keycode =>
      let wasPushToRecord := shortcuts.pushToRecord.matches pressedKeys
      let pressed' := pressedKeys.erase keycode
      let cmds : List RecordingCommand :=
        if wasPushToRecord && !state.isRecordingLocked then [.stopRecording] else []
      { passThrough := some event, pressedKeys := pressed', commands := cmds }

/-! ## Voice activity detection (`recording/vad.rs`) -/

/-- Audio samples.  `f32` in the source; carried opaquely — none of the
modelled code paths computes on sample values. -/
abbrev Sample := Int

/-- `FRAME_SAMPLES` from `vad.rs`. -/
def FRAME_SAMPLES : Nat := 512

/-- `CONTEXT_SIZE` from `vad.rs`. -/
def CONTEXT_SIZE : Nat := 64

/-- `VadError` from `vad.rs`. -/
inductive VadError where
  | invalidThreshold
  | initError (msg : String)
  | invalidFrameSize (expected : Nat) (actual : Nat)
  | computeError (msg : String)
  deriving DecidableEq, Repr

/-- `VadFrame` from `vad.rs`, with the borrowed slice materialized. -/
inductive VadFrame where
  | speech (samples : List Sample)
  | noise
  deriving DecidableEq, Repr

/-- `VadFrame::is_speech`. -/
def VadFrame.isSpeech : VadFrame → Bool
  | .speech _ => true
  | .noise => false

/-- The mutable fields of `SileroVad` that inference touches: the RNN state
tensor (shape `[2,1,128]`, abstracted to its flat contents) and the 64-sample
context tail. -/
structure SileroState where
  rnnState : List Rat
  context : List Sample
  deriving DecidableEq

/-- The ONNX session of `SileroVad`, as an oracle: given the context-prefixed
input and the RNN state it yields the speech probability and the next RNN
state.  The model file is external to the repository. -/
abbrev SileroSession := List Sample → List Rat → Rat × List Rat

/-- `SileroVad::calc_level` (vad.rs:140-189): prepend the context, run the
session, store the new RNN state, refresh the context from the frame tail. -/
def calcLevel (session : SileroSession) (s : SileroState) (audioFrame : List Sample) :
    Rat × SileroState :=
  let inputWithContext := s.context ++ audioFrame
  let (prob, rnn') := session inputWithContext s.rnnState
  let context' :=
    if audioFrame.length ≥ CONTEXT_SIZE then
      audioFrame.drop (audioFrame.length - CONTEXT_SIZE)
    else s.context
  (prob, { rnnState := rnn', context := context' })

/-- `SileroVad::push_frame` (vad.rs:193-211).  Besides the result and the
updated detector state it reports whether the session was invoked, so theorems
can speak about "without running inference". -/
def sileroPushFrame (session : SileroSession) (threshold : Rat)
    (s : SileroState) (frame : List Sample) :
    Except VadError VadFrame × SileroState × Bool :=
  if frame.length ≠ FRAME_SAMPLES then
    (Except.error (VadError.invalidFrameSize FRAME_SAMPLES frame.length), s, false)
  else
    let (prob, s') := calcLevel session s frame
    if prob > threshold then (Except.ok (VadFrame.speech frame), s', true)
    else (Except.ok VadFrame.noise, s', true)

/-- `SileroVad::reset` (vad.rs:213-217), on the mutable fields: zero RNN state
and context. -/
def sileroReset : SileroState :=
  { rnnState := List.replicate (2 * 1 * 128) 0, context := List.replicate CONTEXT_SIZE 0 }

/-- An inner detector for `SmoothedVad`: the `is_voice` call, threading an
inner state of type `σ`. -/
abbrev InnerVad (σ : Type) := σ → List Sample → Except VadError (Bool × σ)

/-- The mutable fields of `SmoothedVad`. -/
structure SmoothedState (σ : Type) where
  innerState : σ
  frameBuffer : List (List Sample)
  hangoverCounter : Nat
  onsetCounter : Nat
  inSpeech : Bool
  deriving DecidableEq

/-- The three construction parameters of `SmoothedVad`. -/
structure SmoothedParams where
  prefillFrames : Nat
  hangoverFrames : Nat
  onsetFrames : Nat
  deriving DecidableEq, Repr

/-- The buffer maintenance loop of `SmoothedVad::push_frame` step 1:
`while frame_buffer.len() > prefill_frames + 1 { pop_front }`. -/
def trimFront (buffer : List (List Sample)) (maxLen : Nat) : List (List Sample) :=
  buffer.drop (buffer.length - maxLen)

/-- `SmoothedVad::push_frame` (vad.rs:270-330), translated arm by arm from the
`match (self.in_speech, is_voice)`. -/
def smoothedPushFrame {σ : Type} (inner : InnerVad σ) (p : SmoothedParams)
    (st : SmoothedState σ) (frame : List Sample) :
    Except VadError VadFrame × SmoothedState σ :=
  let buffer := trimFront (st.frameBuffer ++ [frame]) (p.prefillFrames + 1)
  match inner st.innerState frame with
  | Except.error e => (Except.error e, { st with frameBuffer := buffer })
  | Except.ok (isVoice, inner') =>
      match st.inSpeech, isVoice with
      | false, true =>
          let onset' := st.onsetCounter + 1
          if onset' ≥ p.onsetFrames then
            (Except.ok (VadFrame.speech buffer.flatten),
             { innerState := inner', frameBuffer := buffer,
               hangoverCounter := p.hangoverFrames, onsetCounter := 0,
               inSpeech := true })
          else
            (Except.ok VadFrame.noise,
             { innerState := inner', frameBuffer := buffer,
               hangoverCounter := st.hangoverCounter, onsetCounter := onset',
               inSpeech := false })
      | true, true =>
          (Except.ok (VadFrame.speech frame),
           { innerState := inner', frameBuffer := buffer,
             hangoverCounter := p.hangoverFrames, onsetCounter := st.onsetCounter,
             inSpeech := true })
      | true, false =>
          if st.hangoverCounter > 0 then
            (Except.ok (VadFrame.speech frame),
             { innerState := inner', frameBuffer := buffer,
               hangoverCounter := st.hangoverCounter - 1,
               onsetCounter := st.onsetCounter, inSpeech := true })
          else
            (Except.ok VadFrame.noise,
             { innerState := inner', frameBuffer := buffer,
               hangoverCounter := st.hangoverCounter,
               onsetCounter := st.onsetCounter, inSpeech := false })
      | false, false =>
          (Except.ok VadFrame.noise,
           { innerState := inner', frameBuffer := buffer,
             hangoverCounter := st.hangoverCounter, onsetCounter := 0,
             inSpeech := false })

/-- Feed a list of frames through `smoothedPushFrame`, collecting the emitted
results in order. -/
def runSmoothed {σ : Type} (inner : InnerVad σ) (p : SmoothedParams)
    (st : SmoothedState σ) : List (List Sample) →
    List (Except VadError VadFrame) × SmoothedState σ
  | [] => ([], st)
  | frame :: rest =>
      let (out, st') := smoothedPushFrame inner p st frame
      let (outs, stEnd) := runSmoothed inner p st' rest
      (out :: outs, stEnd)

/-- A scripted inner detector whose verdicts are a fixed boolean sequence,
independent of the frame contents (the hypothesis of claim C4: "frames whose
inner-detector verdicts are ..."). -/
def scriptedVad : InnerVad (List Bool) :=
  fun script _ => Except.ok (script.headD false, script.tail)

/-- A fresh `SmoothedVad` state over a scripted inner detector, as after
`reset()`: empty buffer, zero counters, not in speech. -/
def freshSmoothed (script : List Bool) : SmoothedState (List Bool) :=
  { innerState := script, frameBuffer := [], hangoverCounter := 0,
    onsetCounter := 0, inSpeech := false }

/-! ## VAD framing (`recording/audio_recorder.rs`, `process_through_vad_and_write`) -/

/-- The drain loop of `process_through_vad_and_write` (audio_recorder.rs:646-677):
`while vad_buf.len() >= FRAME_SAMPLES { drain(..FRAME_SAMPLES) }`.
Returns the frames pushed to the detector, in order, and the remaining
buffer. -/
def drainFrames (buf : List Sample) : List (List Sample) × List Sample :=
  if h : FRAME_SAMPLES ≤ buf.length then
    have : buf.length - FRAME_SAMPLES < buf.length := by
      have hpos : 0 < FRAME_SAMPLES := by norm_num [FRAME_SAMPLES]
      omega
    let rest := drainFrames (buf.drop FRAME_SAMPLES)
    (buf.take FRAME_SAMPLES :: rest.1, rest.2)
  else
    ([], buf)
termination_by buf.length
decreasing_by simpa using this

/-- One delivery of mono post-resample samples through the VAD accumulator
(audio_recorder.rs:643-678): `vad_buf.extend_from_slice(mono_samples)` then
drain complete `FRAME_SAMPLES` chunks. -/
def processDelivery (vadBuf : List Sample) (monoSamples : List Sample) :
    List (List Sample) × List Sample :=
  drainFrames (vadBuf ++ monoSamples)

/-- A whole sequence of audio-callback deliveries, starting from an empty VAD
accumulator: the frames pushed to the detector across all calls, and the
final buffer contents. -/
def processDeliveries (deliveries : List (List Sample)) :
    List (List Sample) × List Sample :=
  deliveries.foldl
    (fun acc d =>
      let r := processDelivery acc.2 d
      (acc.1 ++ r.1, r.2))
    ([], [])

/-! ## Transcription wrapper (`clients/transcriber.rs`) -/

/-- `TranscriptionError` from `clients/error.rs` (the `IoError` payload is
carried as its message). -/
inductive TranscriptionError where
  | fileTooLarge (sizeBytes : Nat)
  | fileNotFound (path : String)
  | apiError (msg : String)
  | ioError (msg : String)
  | apiKeyMissing
  | transcriptionTimeout (secs : Nat)
  | noModelSelected
  | modelNotFound (name : String)
  | modelNotDownloaded (name : String)
  | modelLoadFailed (msg : String)
  | localTranscriptionFailed (msg : String)
  deriving DecidableEq, Repr

/-- `MIN_AUDIO_DURATION_MS` from `clients/transcriber.rs`: a fixed constant. -/
def MIN_AUDIO_DURATION_MS : Nat := 500

/-- `MAX_FILE_SIZE_BYTES` from `clients/transcriber.rs`: 25 MiB. -/
def MAX_FILE_SIZE_BYTES : Nat := 25 * 1024 * 1024

/-- The config constants `DEFAULT/MIN_ALLOWED/MAX_ALLOWED_SPEECH_DURATION_MS`
from `config.rs`. -/
def DEFAULT_MIN_SPEECH_DURATION_MS : Nat := 500
def MIN_ALLOWED_SPEECH_DURATION_MS : Nat := 100
def MAX_ALLOWED_SPEECH_DURATION_MS : Nat := 10000

/-- The file system as the transcriber observes it: existence and metadata
size per path. -/
structure FsView where
  pathExists : String → Bool
  fileSize : String → Nat

/-- A transcription backend (`Box<dyn TranscriptionService>`): path to text or
error. -/
abbrev Backend := String → Except TranscriptionError String

/-- `Transcriber::validate_file` (transcriber.rs:218-240). -/
def validateFile (fs : FsView) (filePath : String) : Except TranscriptionError Unit :=
  if !fs.pathExists filePath then
    Except.error (TranscriptionError.fileNotFound filePath)
  else if fs.fileSize filePath > MAX_FILE_SIZE_BYTES then
    Except.error (TranscriptionError.fileTooLarge (fs.fileSize filePath))
  else
    Except.ok ()

/-- `Transcriber::transcribe` (transcriber.rs:108-127): duration gate, then
file validation, then delegation to the selected backend. -/
def transcribe (fs : FsView) (service : Backend) (filePath : String)
    (durationMs : Nat) : Except TranscriptionError String :=
  if durationMs < MIN_AUDIO_DURATION_MS then
    Except.ok ""
  else
    match validateFile fs filePath with
    | Except.error e => Except.error e
    | Except.ok () => service filePath

/-- Modelled from the spec: the pre-call validation as claim C5 words it, with
the duration gate reading the *configured* `min_speech_duration_ms` instead of
the fixed constant; used only to compare against `transcribe`. -/
def transcribeSpecClaim (cfgMinSpeechDurationMs : Nat) (fs : FsView)
    (service : Backend) (filePath : String) (durationMs : Nat) :
    Except TranscriptionError String :=
  if durationMs < cfgMinSpeechDurationMs then
    Except.ok ""
  else
    match validateFile fs filePath with
    | Except.error e => Except.error e
    | Except.ok () => service filePath

/-! ## Local model loader (`models/loader.rs`) -/

/-- `LoadedModel` from `loader.rs`; the `LocalClient` handle is carried as an
opaque identifier. -/
structure LoadedModel where
  name : String
  client : Nat
  deriving DecidableEq, Repr

/-- The shared mutable state of `ModelLoader`: the `current_model` and
`loading` mutexes. -/
structure LoaderState where
  currentModel : Option LoadedModel
  loading : Option String
  deriving DecidableEq, Repr

/-- The loader's external collaborators: the model catalog, the file system,
`LocalClient::new`, and `LocalClient::transcribe_file` (errors already
stringified as in `loader.rs`). -/
structure LoaderEnv where
  inCatalog : String → Bool
  modelPathExists : String → Bool
  newClient : String → Except String Nat
  transcribeFile : LoadedModel → String → Except String String

/-- Observable actions of `transcribe_with_model`, recorded as a trace:
synchronous loads started and inference runs (with the name of the model the
inference uses). -/
inductive LoaderEvent where
  | loadStarted (modelName : String)
  | inferred (modelName : String)
  deriving DecidableEq, Repr

/-- `ModelLoader::load_model_sync` (loader.rs:344-425).  Returns the outcome
and the state left behind.  Note the source clears the `loading` flag on the
file-missing and client-error paths but not on the catalog-miss path (the `?`
early return); the translation keeps that behaviour. -/
def loadModelSync (env : LoaderEnv) (modelName : String) (s : LoaderState) :
    Except String Unit × LoaderState :=
  if (match s.currentModel with
      | some m => m.name = modelName
      | none => false : Bool) then
    (Except.ok (), s)
  else if s.loading.isSome then
    (Except.error "Another model is currently loading", s)
  else
    let s₁ : LoaderState := { s with loading := some modelName }
    if !env.inCatalog modelName then
      (Except.error ("Model '" ++ modelName ++ "' not found in catalog"), s₁)
    else if !env.modelPathExists modelName then
      (Except.error ("Model file not found: " ++ modelName),
       { s₁ with loading := none })
    else
      -- unload_model, then LocalClient::new, then clear the loading flag
      match env.newClient modelName with
      | Except.error e =>
          (Except.error ("Failed to load model: " ++ e),
           { currentModel := none, loading := none })
      | Except.ok client =>
          (Except.ok (),
           { currentModel := some { name := modelName, client := client },
             loading := none })

/-- The wording of the mismatch error in `transcribe_with_model`
(loader.rs:326-329). -/
def modelChangedMsg (expected loadedName : String) : String :=
  "Model changed during transcription: expected '" ++ expected ++ "' but '" ++
    loadedName ++ "' is loaded. Please try again."

/-- The first, short-lock check of `transcribe_with_model`
(loader.rs:294-300): load is needed when no model or a differently-named
model is loaded. -/
def needsLoadCheck (modelName : String) (s : LoaderState) : Bool :=
  match s.currentModel with
  | some m => m.name ≠ modelName
  | none => true

/-- The on-demand load phase of `transcribe_with_model` (loader.rs:302-308),
with its observable trace. -/
def loadPhase (env : LoaderEnv) (modelName : String) (needsLoad : Bool)
    (s₁ : LoaderState) : Except String Unit × LoaderState × List LoaderEvent :=
  if needsLoad then
    ((loadModelSync env modelName s₁).1, (loadModelSync env modelName s₁).2,
     [LoaderEvent.loadStarted modelName])
  else
    (Except.ok (), s₁, [])

/-- The final block of `transcribe_with_model` (loader.rs:311-336): under ONE
lock acquisition, re-verify the loaded model's name and only then run
inference.  Returns the result and the inference event, if any. -/
def verifyAndInfer (env : LoaderEnv) (modelName : String) (audioPath : String)
    (s₃ : LoaderState) : Except String String × Option LoaderEvent :=
  match s₃.currentModel with
  | some m =>
      if m.name = modelName then
        (env.transcribeFile m audioPath, some (LoaderEvent.inferred m.name))
      else
        (Except.error (modelChangedMsg modelName m.name), none)
  | none =>
      (Except.error "Model was unloaded during transcription. Please try again.", none)

/-- `ModelLoader::transcribe_with_model` (loader.rs:288-337).  The two points
where no lock is held — between the first check and the on-demand load, and
between the load and the final verification+inference lock — are interference
points where other threads may rewrite the shared state; they are passed in as
`race₁` and `race₂`.  Returns the result, the final state, and the trace of
observable actions. -/
def transcribeWithModel (env : LoaderEnv) (race₁ race₂ : LoaderState → LoaderState)
    (modelName : String) (audioPath : String) (s₀ : LoaderState) :
    Except String String × LoaderState × List LoaderEvent :=
  let s₁ := race₁ s₀
  match loadPhase env modelName (needsLoadCheck modelName s₀) s₁ with
  | (Except.error e, s₂, tr) => (Except.error e, s₂, tr)
  | (Except.ok (), s₂, tr) =>
      let s₃ := race₂ s₂
      let vi := verifyAndInfer env modelName audioPath s₃
      (vi.1, s₃, tr ++ vi.2.toList)

/-! ## Clipboard paste (`text_paster.rs`, `clipboard_paste.rs`) -/

/-- The clipboard: `none` when it holds no text (so `get_text()` fails). -/
abbrev Clipboard := Option String

/-- `ClipboardPasteError` from `text_paster.rs` (macOS variants). -/
inductive ClipboardPasteError where
  | eventSourceCreationFailed
  | keyEventCreationFailed
  | emptyText
  | clipboardError (msg : String)
  deriving DecidableEq, Repr

/-- `paste_text` (text_paster.rs:35-68) on its clipboard effects, with the
keystroke synthesis elided (it does not touch the clipboard) and the
clipboard primitives taken as always available.  `foreignWrite` is whatever a
foreign writer does to the clipboard between the write (step 2) and the
restore (step 5); the function returns the final clipboard contents.  The
restore of the snapshot is unconditional in this source. -/
def pasteText (text : String) (foreignWrite : Clipboard → Clipboard)
    (clip₀ : Clipboard) : Except ClipboardPasteError Clipboard :=
  if text = "" then
    Except.error ClipboardPasteError.emptyText
  else
    let previousClipboard := clip₀
    let clip₁ : Clipboard := some text
    let clip₂ := foreignWrite clip₁
    match previousClipboard with
    | some previousText => Except.ok (some previousText)
    | none => Except.ok clip₂

/-- `auto_paste_text_cgevent` (clipboard_paste.rs:186-240) on its clipboard
effects, same modelling conventions as `pasteText`.  Here the restore is
guarded: only if the clipboard still holds exactly the text that was
written. -/
def autoPasteTextCgevent (text : String) (foreignWrite : Clipboard → Clipboard)
    (clip₀ : Clipboard) : Except String Clipboard :=
  if text = "" then
    Except.error "Cannot paste empty text"
  else
    let previousClipboard := clip₀
    let clip₁ : Clipboard := some text
    let clip₂ := foreignWrite clip₁
    match previousClipboard with
    | some previousText =>
        match clip₂ with
        | some currentText =>
            if currentText = text then Except.ok (some previousText)
            else Except.ok clip₂
        | none => Except.ok clip₂
    | none => Except.ok clip₂

/-! ## Auxiliary definitions for concrete scenarios -/

deriving instance DecidableEq for Except

/-- The rising-edge condition the listener computes for push-to-record:
not matched before the insert, matched after (keyboard_listener.rs:114-120). -/
def pushToRecordRising (shortcuts : ShortcutsConfig) (pressedKeys : Finset Nat)
    (keycode : Nat) : Bool :=
  !shortcuts.pushToRecord.matches pressedKeys &&
    shortcuts.pushToRecord.matches (insert keycode pressedKeys)

/-- The rising-edge condition for hands-free (keyboard_listener.rs:115-131). -/
def handsFreeRising (shortcuts : ShortcutsConfig) (pressedKeys : Finset Nat)
    (keycode : Nat) : Bool :=
  !shortcuts.handsFree.matches pressedKeys &&
    shortcuts.handsFree.matches (insert keycode pressedKeys)

/-- The inner-detector verdict sequence of claim C4. -/
def c4Script : List Bool := [false, false, true, true, false, false, false, false, false]

/-- The smoothing parameters of claim C4: prefill 2, hangover 3, onset 2. -/
def c4Params : SmoothedParams :=
  { prefillFrames := 2, hangoverFrames := 3, onsetFrames := 2 }

/-- A file system where every path exists with size 0. -/
def fsAll : FsView := { pathExists := fun _ => true, fileSize := fun _ => 0 }

/-- A backend that always transcribes to a fixed text. -/
def backendHello : Backend := fun _ => Except.ok "hello"

/-- A loader environment where every model is in the catalog, on disk, loads
as client 7 and transcribes to a fixed text. -/
def loaderEnv₀ : LoaderEnv :=
  { inCatalog := fun _ => true
    modelPathExists := fun _ => true
    newClient := fun _ => Except.ok 7
    transcribeFile := fun _ _ => Except.ok "text" }

/-! # Theorems -/

/-! ## C1: the transition table -/

/-- Everywhere except the `(RecordingLocked, Stop)` cell, the code's
transition function agrees with the section 4.4 table. -/
theorem computeTransition_agrees_except_locked_stop
    (s : RecordingState) (e : RecordingEvent)
    (h : ¬(s = RecordingState.recordingLocked ∧ e = RecordingEvent.stop)) :
    computeTransition s e = specTransitionTable s e := by
  cases s <;> cases e <;> simp_all [computeTransition, specTransitionTable]

/-- Claim C1: the spec's section 4.4 table says `(RecordingLocked, Stop)`
yields `(Transcribing, StopAndTranscribe)`, but `compute_transition` rejects
that pair (`None`) — the `RecordingLocked` arm only accepts `Start` and
`Cancel`.  This theorem evaluates both at the failing input. -/
theorem c1_recordingLocked_stop_diverges :
    computeTransition RecordingState.recordingLocked RecordingEvent.stop = none ∧
    specTransitionTable RecordingState.recordingLocked RecordingEvent.stop =
      some (RecordingState.transcribing, some RecordingAction.stopAndTranscribe) :=
  ⟨rfl, rfl⟩

/-! ## C3: release of a suppressed press -/

/-- Claim C3 counterexample: with the default shortcuts, pressing Fn
(keycode 63) in `Ready` is suppressed (`passThrough = none`, the key now held),
yet the following release of the same key is passed through to the OS. -/
theorem c3_counterexample :
    (handleNormalMode defaultShortcuts RecordingState.ready ∅
        (KeyEvent.press 63)).passThrough = none ∧
    (handleNormalMode defaultShortcuts RecordingState.ready ∅
        (KeyEvent.press 63)).pressedKeys = {63} ∧
    (handleNormalMode defaultShortcuts RecordingState.recording {63}
        (KeyEvent.release 63)).passThrough = some (KeyEvent.release 63) := by
  refine ⟨by decide, by decide, by decide⟩

/-- Claim C3 (amended): in Normal mode the listener never suppresses key
releases — every release event is passed through to the OS, even when the
paired press was suppressed. -/
theorem c3_release_always_passes_through (shortcuts : ShortcutsConfig)
    (state : RecordingState) (pressedKeys : Finset Nat) (keycode : Nat) :
    (handleNormalMode shortcuts state pressedKeys
        (KeyEvent.release keycode)).passThrough = some (KeyEvent.release keycode) := by
  simp [handleNormalMode]

/-! ## C10: wrong-sized frames never touch the Silero detector state -/

/-- Claim C10: for every input slice whose length is not exactly 512,
`SileroVad::push_frame` returns `InvalidFrameSize{expected: 512, actual: len}`,
leaves the RNN state and context buffer untouched, and never invokes the
session (the flag is `false` for every possible session function). -/
theorem c10_silero_rejects_wrong_size (session : SileroSession) (threshold : Rat)
    (s : SileroState) (frame : List Sample) (h : frame.length ≠ FRAME_SAMPLES) :
    sileroPushFrame session threshold s frame =
      (Except.error (VadError.invalidFrameSize FRAME_SAMPLES frame.length), s, false) := by
  simp [sileroPushFrame, h]

/-- Witness for C10 at the concrete frame `[0, 0, 0]` (length 3 ≠ 512) on a
freshly reset detector with the default threshold 1/2. -/
theorem c10_witness :
    ([0, 0, 0] : List Sample).length ≠ FRAME_SAMPLES ∧
    sileroPushFrame (fun _ rnn => ((0 : Rat), rnn)) (1/2) sileroReset [0, 0, 0] =
      (Except.error (VadError.invalidFrameSize FRAME_SAMPLES 3), sileroReset, false) :=
  ⟨by decide,
   c10_silero_rejects_wrong_size (fun _ rnn => ((0 : Rat), rnn)) (1/2) sileroReset
     [0, 0, 0] (by decide)⟩

/-! ## C8: exact shortcut matching -/

/-- If the duplicate scan finds nothing, the keycodes are distinct from each
other and from everything already seen. -/
theorem firstDuplicate_none_nodup (keys : List ShortcutKey) (seen : Finset Nat)
    (h : firstDuplicate keys seen = none) :
    (keys.map ShortcutKey.keycode).Nodup ∧ ∀ k ∈ keys, k.keycode ∉ seen := by
  induction keys generalizing seen with
  | nil => simp
  | cons k rest ih =>
      rw [firstDuplicate] at h
      by_cases hk : k.keycode ∈ seen
      · simp [hk] at h
      · simp only [hk, if_false] at h
        obtain ⟨hnodup, hseen⟩ := ih (insert k.keycode seen) h
        refine ⟨?_, ?_⟩
        · refine List.nodup_cons.mpr ⟨?_, hnodup⟩
          intro hmem
          obtain ⟨x, hx, hxeq⟩ := List.mem_map.mp hmem
          exact (hseen x hx) (by simp [hxeq])
        · intro x hx
          cases hx with
          | head => exact hk
          | tail _ hx' =>
              intro hmemseen
              exact (hseen x hx') (Finset.mem_insert_of_mem hmemseen)

/-- A validated shortcut has pairwise-distinct keycodes. -/
theorem validate_ok_nodup (s : Shortcut) (h : s.validate = Except.ok ()) :
    (s.keys.map ShortcutKey.keycode).Nodup := by
  unfold Shortcut.validate at h
  by_cases hlen : s.keys.isEmpty || s.keys.length > 3
  · simp [hlen] at h
  · simp only [hlen, if_false] at h
    cases hd : firstDuplicate s.keys ∅ with
    | some k => simp [hd] at h
    | none => exact (firstDuplicate_none_nodup s.keys ∅ hd).1

/-- Claim C8: `Shortcut::matches` holds iff the pressed set has exactly as
many keys as the shortcut and every keycode of the shortcut is pressed; and
for a shortcut that passes `validate()` (hence has no duplicate keycodes) a
strict superset of its keycode set never matches. -/
theorem c8_shortcut_exact_match (s : Shortcut) (P : Finset Nat) :
    (s.matches P = true ↔
      s.keys.length = P.card ∧ ∀ k ∈ s.keys, k.keycode ∈ P) ∧
    (s.validate = Except.ok () → s.keycodes ⊂ P → s.matches P = false) := by
  constructor
  · simp [Shortcut.matches, List.all_eq_true]
  · intro hval hss
    have hnodup := validate_ok_nodup s hval
    have hcardlt : s.keycodes.card < P.card := Finset.card_lt_card hss
    have hcards : s.keycodes.card = s.keys.length := by
      unfold Shortcut.keycodes
      rw [List.toFinset_card_of_nodup hnodup, List.length_map]
    by_contra hmatch
    have hm : s.matches P = true := by
      cases hb : s.matches P
      · exact absurd hb hmatch
      · rfl
    have hlen : s.keys.length = P.card := by
      simp only [Shortcut.matches, Bool.and_eq_true, decide_eq_true_eq] at hm
      exact hm.1
    omega

/-- Witness for C8: the one-key Fn shortcut validates, `{63, 49}` is a strict
superset of its keycode set, and indeed it does not match `{63, 49}`. -/
theorem c8_witness :
    ({ keys := [{ keycode := 63, label := "Fn" }] } : Shortcut).matches {63, 49} = false :=
  (c8_shortcut_exact_match { keys := [{ keycode := 63, label := "Fn" }] } {63, 49}).2
    (by decide) (by decide)

/-! ## C2: commands emitted on key presses in Normal mode -/

/-- The commands a press produces, factored out of `handleNormalMode`: the
push-to-record block runs first, then the hands-free block. -/
theorem handleNormalMode_press_commands (shortcuts : ShortcutsConfig)
    (state : RecordingState) (pressedKeys : Finset Nat) (keycode : Nat) :
    (handleNormalMode shortcuts state pressedKeys (KeyEvent.press keycode)).commands =
      (if pushToRecordRising shortcuts pressedKeys keycode then
        (if state.isRecordingLocked then [RecordingCommand.stopRecording]
         else [RecordingCommand.startRecording])
       else []) ++
      (if handsFreeRising shortcuts pressedKeys keycode then
        (if state.isRecordingLocked then [RecordingCommand.stopRecording]
         else [RecordingCommand.startRecording, RecordingCommand.lockRecording])
       else []) := by
  simp only [handleNormalMode, pushToRecordRising, handsFreeRising]
  split
  · rfl
  · split <;> rfl

/-- Claim C2 counterexample: in state `Transcribing` the recorder is busy
(`is_busy`), yet a push-to-record rising edge (pressing Fn with the default
shortcuts) still sends `StartRecording` — the listener only checks
`is_recording_locked`, not `is_busy`. -/
theorem c2_counterexample :
    RecordingState.transcribing.isBusy = true ∧
    (handleNormalMode defaultShortcuts RecordingState.transcribing ∅
        (KeyEvent.press 63)).commands = [RecordingCommand.startRecording] := by
  refine ⟨by decide, by decide⟩

/-- Claim C2 (amended): in Normal mode, for every key press the decision is
taken on `is_recording_locked` (not `is_busy`): a push_to_record or hands_free
rising edge sends `StartRecording` exactly when recording is not locked and
`StopRecording` exactly when it is locked; `LockRecording` is sent exactly on
a hands_free rising edge while not locked, and then it immediately follows a
`StartRecording`. -/
theorem c2_press_commands_by_lock_state (shortcuts : ShortcutsConfig)
    (state : RecordingState) (pressedKeys : Finset Nat) (keycode : Nat) :
    (RecordingCommand.startRecording ∈
        (handleNormalMode shortcuts state pressedKeys (KeyEvent.press keycode)).commands ↔
      (pushToRecordRising shortcuts pressedKeys keycode = true ∨
        handsFreeRising shortcuts pressedKeys keycode = true) ∧
        state.isRecordingLocked = false) ∧
    (RecordingCommand.stopRecording ∈
        (handleNormalMode shortcuts state pressedKeys (KeyEvent.press keycode)).commands ↔
      (pushToRecordRising shortcuts pressedKeys keycode = true ∨
        handsFreeRising shortcuts pressedKeys keycode = true) ∧
        state.isRecordingLocked = true) ∧
    (RecordingCommand.lockRecording ∈
        (handleNormalMode shortcuts state pressedKeys (KeyEvent.press keycode)).commands ↔
      handsFreeRising shortcuts pressedKeys keycode = true ∧
        state.isRecordingLocked = false) ∧
    (handsFreeRising shortcuts pressedKeys keycode = true →
      state.isRecordingLocked = false →
      ∃ i, (handleNormalMode shortcuts state pressedKeys
              (KeyEvent.press keycode)).commands.get? i =
             some RecordingCommand.startRecording ∧
           (handleNormalMode shortcuts state pressedKeys
              (KeyEvent.press keycode)).commands.get? (i + 1) =
             some RecordingCommand.lockRecording) := by
  rw [handleNormalMode_press_commands]
  cases hptr : pushToRecordRising shortcuts pressedKeys keycode <;>
    cases hhf : handsFreeRising shortcuts pressedKeys keycode <;>
      cases hlk : state.isRecordingLocked <;>
        simp only [if_true, if_false, Bool.false_eq_true, Bool.true_eq_false]
  · refine ⟨by simp, by simp, by simp, by simp⟩
  · refine ⟨by simp, by simp, by simp, by simp⟩
  · refine ⟨by simp, by simp, by simp, ?_⟩
    intro _ _
    exact ⟨0, rfl, rfl⟩
  · refine ⟨by simp, by simp, by simp, by simp⟩
  · refine ⟨by simp, by simp, by simp, by simp⟩
  · refine ⟨by simp, by simp, by simp, by simp⟩
  · refine ⟨by simp, by simp, by simp, ?_⟩
    intro _ _
    exact ⟨1, rfl, rfl⟩
  · refine ⟨by simp, by simp, by simp, by simp⟩

/-- Witness for C2 (amended) at the default shortcuts: pressing Fn in `Ready`
(not locked) sends `StartRecording`. -/
theorem c2_witness :
    RecordingCommand.startRecording ∈
      (handleNormalMode defaultShortcuts RecordingState.ready ∅
          (KeyEvent.press 63)).commands :=
  (c2_press_commands_by_lock_state defaultShortcuts RecordingState.ready ∅ 63).1.mpr
    (by refine ⟨Or.inl (by decide), by decide⟩)

/-! ## C4: SmoothedVad hysteresis -/

/-- Claim C4 counterexample: with onset 2, hangover 3, prefill 2 and
inner verdicts `[F,F,T,T,F,F,F,F,F]` on the concrete frames
`[[1],…,[9]]`, the emitted sequence is NOT the claimed
`N,N,S(prefill++frame),S,S,S,S,N,N` — with onset 2, speech only triggers on
the second consecutive true verdict, so the third emission is still `Noise`. -/
theorem c4_counterexample :
    (runSmoothed scriptedVad c4Params (freshSmoothed c4Script)
        [[1], [2], [3], [4], [5], [6], [7], [8], [9]]).1.get? 2 =
      some (Except.ok VadFrame.noise) ∧
    (runSmoothed scriptedVad c4Params (freshSmoothed c4Script)
        [[1], [2], [3], [4], [5], [6], [7], [8], [9]]).1 ≠
      [Except.ok VadFrame.noise, Except.ok VadFrame.noise,
       Except.ok (VadFrame.speech [1, 2, 3]), Except.ok (VadFrame.speech [4]),
       Except.ok (VadFrame.speech [5]), Except.ok (VadFrame.speech [6]),
       Except.ok (VadFrame.speech [7]), Except.ok VadFrame.noise,
       Except.ok VadFrame.noise] := by
  refine ⟨by decide, by decide⟩

/-- Claim C4 (amended): with onset 2, hangover 3, prefill 2 and inner
verdicts `[F,F,T,T,F,F,F,…,F]`, the emitted sequence is
`N,N,N,S(prefill++frame),S,S,S,N,N,…`: speech onset fires on the *second*
consecutive true-verdict frame (emitting the 2-frame prefill plus that
frame), there are exactly 3 Speech emissions after the last true-verdict
frame, and every further false-verdict frame emits Noise. -/
theorem c4_smoothed_hysteresis (f₁ f₂ f₃ f₄ f₅ f₆ f₇ f₈ f₉ : List Sample) :
    (runSmoothed scriptedVad c4Params (freshSmoothed c4Script)
        [f₁, f₂, f₃, f₄, f₅, f₆, f₇, f₈, f₉]).1 =
      [Except.ok VadFrame.noise, Except.ok VadFrame.noise, Except.ok VadFrame.noise,
       Except.ok (VadFrame.speech (f₂ ++ (f₃ ++ f₄))), Except.ok (VadFrame.speech f₅),
       Except.ok (VadFrame.speech f₆), Except.ok (VadFrame.speech f₇),
       Except.ok VadFrame.noise, Except.ok VadFrame.noise] ∧
    ∀ g : List Sample,
      (smoothedPushFrame scriptedVad c4Params
          (runSmoothed scriptedVad c4Params (freshSmoothed c4Script)
            [f₁, f₂, f₃, f₄, f₅, f₆, f₇, f₈, f₉]).2 g).1 = Except.ok VadFrame.noise := by
  refine ⟨?_, ?_⟩ <;>
    simp [runSmoothed, smoothedPushFrame, scriptedVad, freshSmoothed, c4Script,
      c4Params, trimFront]

/-! ## C5: transcription pre-call validation -/

/-- Claim C5 counterexample: `Transcriber::transcribe` gates on the fixed
constant `MIN_AUDIO_DURATION_MS = 500`, not on the configured
`min_speech_duration_ms`.  With the configuration set to 1000 ms (inside the
allowed range) and a 700 ms recording, the claim says the call returns
`Ok("")`, but the code proceeds to validation and delegates to the backend. -/
theorem c5_counterexample :
    MIN_ALLOWED_SPEECH_DURATION_MS ≤ 1000 ∧ 1000 ≤ MAX_ALLOWED_SPEECH_DURATION_MS ∧
    transcribe fsAll backendHello "a.wav" 700 = Except.ok "hello" ∧
    transcribeSpecClaim 1000 fsAll backendHello "a.wav" 700 = Except.ok "" := by
  refine ⟨by decide, by decide, by decide, by decide⟩

/-- Claim C5 (amended): `Transcriber::transcribe(file_path, duration_ms)`
returns `Ok("")` (not an error) whenever `duration_ms` is below the fixed
`MIN_AUDIO_DURATION_MS = 500` (the configured `min_speech_duration_ms` is not
consulted here); otherwise it returns `FileNotFound` when the file does not
exist, `FileTooLarge{bytes}` when its metadata size exceeds 25 MiB, and only
then delegates to the selected backend. -/
theorem c5_transcribe_validation (fs : FsView) (service : Backend)
    (filePath : String) (durationMs : Nat) :
    (durationMs < MIN_AUDIO_DURATION_MS →
      transcribe fs service filePath durationMs = Except.ok "") ∧
    (MIN_AUDIO_DURATION_MS ≤ durationMs → fs.pathExists filePath = false →
      transcribe fs service filePath durationMs =
        Except.error (TranscriptionError.fileNotFound filePath)) ∧
    (MIN_AUDIO_DURATION_MS ≤ durationMs → fs.pathExists filePath = true →
      MAX_FILE_SIZE_BYTES < fs.fileSize filePath →
      transcribe fs service filePath durationMs =
        Except.error (TranscriptionError.fileTooLarge (fs.fileSize filePath))) ∧
    (MIN_AUDIO_DURATION_MS ≤ durationMs → fs.pathExists filePath = true →
      fs.fileSize filePath ≤ MAX_FILE_SIZE_BYTES →
      transcribe fs service filePath durationMs = service filePath) := by
  refine ⟨?_, ?_, ?_, ?_⟩
  · intro h
    simp [transcribe, h]
  · intro h hex
    simp [transcribe, validateFile, Nat.not_lt.mpr h, hex]
  · intro h hex hsize
    simp [transcribe, validateFile, Nat.not_lt.mpr h, hex, hsize]
  · intro h hex hsize
    simp [transcribe, validateFile, Nat.not_lt.mpr h, hex, Nat.not_lt.mpr hsize]

/-- Witness for C5 (amended), covering the short-audio arm at 100 ms and the
delegation arm at 700 ms on a file that exists with size 0. -/
theorem c5_witness :
    transcribe fsAll backendHello "b.wav" 100 = Except.ok "" ∧
    transcribe fsAll backendHello "b.wav" 700 = Except.ok "hello" := by
  have h₁ := (c5_transcribe_validation fsAll backendHello "b.wav" 100).1 (by decide)
  have h₂ := (c5_transcribe_validation fsAll backendHello "b.wav" 700).2.2.2
    (by decide) (by decide) (by decide)
  exact ⟨h₁, h₂⟩

/-! ## C6: paste round-trip -/

/-- Claim C6 counterexample: with the clipboard holding `"Y"`, pasting `"X"`
while a foreign writer sets the clipboard to `"Z"` between the write and the
restore.  The claim says `"Y"` must not be restored and the clipboard stays
`"Z"`; `paste_text` (text_paster.rs, used by the tray's paste-again) restores
`"Y"` unconditionally, clobbering the foreign value.  The guarded behaviour
only holds for `auto_paste_text_cgevent` (the controller's paste path). -/
theorem c6_counterexample :
    pasteText "X" (fun _ => some "Z") (some "Y") = Except.ok (some "Y") ∧
    autoPasteTextCgevent "X" (fun _ => some "Z") (some "Y") = Except.ok (some "Z") := by
  refine ⟨by decide, by decide⟩

/-- Claim C6 (amended): `auto_paste_text_cgevent` restores the previous
content `Y` exactly when the clipboard still equals the written text `X`, and
otherwise leaves the foreign writer's value; `paste_text`, however, restores
`Y` unconditionally. -/
theorem c6_paste_round_trip (x y : String) (foreignWrite : Clipboard → Clipboard)
    (h : x ≠ "") :
    autoPasteTextCgevent x foreignWrite (some y) =
      Except.ok (if foreignWrite (some x) = some x then some y
                 else foreignWrite (some x)) ∧
    pasteText x foreignWrite (some y) = Except.ok (some y) := by
  constructor
  · simp only [autoPasteTextCgevent, if_neg h]
    cases hc : foreignWrite (some x) with
    | none => simp [hc]
    | some cur =>
        by_cases hcur : cur = x <;> simp [hc, hcur]
  · simp [pasteText, h]

/-- Witness for C6 (amended): with no foreign interference the previous
clipboard `"Y"` is restored by both functions. -/
theorem c6_witness :
    autoPasteTextCgevent "X" (fun c => c) (some "Y") = Except.ok (some "Y") ∧
    pasteText "X" (fun c => c) (some "Y") = Except.ok (some "Y") := by
  have h := c6_paste_round_trip "X" "Y" (fun c => c) (by decide)
  refine ⟨?_, h.2⟩
  rw [h.1]
  simp

/-! ## C7: model loader swap-race protection -/

/-- The load phase's observable trace: exactly one `loadStarted` when a load
was needed, nothing otherwise. -/
theorem loadPhase_trace (env : LoaderEnv) (modelName : String) (needsLoad : Bool)
    (s₁ : LoaderState) :
    (loadPhase env modelName needsLoad s₁).2.2 =
      if needsLoad then [LoaderEvent.loadStarted modelName] else [] := by
  unfold loadPhase
  split <;> rfl

/-- The verification block only ever infers with the requested model name. -/
theorem verifyAndInfer_inferred (env : LoaderEnv) (modelName audioPath : String)
    (s₃ : LoaderState) (n : String)
    (h : (verifyAndInfer env modelName audioPath s₃).2 =
      some (LoaderEvent.inferred n)) :
    n = modelName := by
  unfold verifyAndInfer at h
  split at h
  · rename_i m heq
    by_cases hname : m.name = modelName
    · rw [if_pos hname] at h
      simp at h
      exact h ▸ hname
    · rw [if_neg hname] at h
      simp at h
  · simp at h

/-- Claim C7: `transcribe_with_model(name, wav)` (i) never runs inference
with a model whose name is not `name`, for every interleaving of foreign
writes at the two unlocked points; (ii) when the loaded model's name differs
from `name` (or none is loaded) it starts a synchronous load of `name`; and
(iii) in the swap-race scenario — nothing loaded, the on-demand load
succeeds, then another thread swaps in a differently-named model before the
verification lock — it returns the "Model changed during transcription"
error. -/
theorem c7_transcribe_with_model (env : LoaderEnv)
    (race₁ race₂ : LoaderState → LoaderState) (modelName audioPath : String)
    (s₀ : LoaderState) :
    (∀ n, LoaderEvent.inferred n ∈
        (transcribeWithModel env race₁ race₂ modelName audioPath s₀).2.2 →
      n = modelName) ∧
    (needsLoadCheck modelName s₀ = true →
      LoaderEvent.loadStarted modelName ∈
        (transcribeWithModel env race₁ race₂ modelName audioPath s₀).2.2) ∧
    (∀ (c : Nat) (m' : LoadedModel),
      s₀.currentModel = none → s₀.loading = none → race₁ s₀ = s₀ →
      env.inCatalog modelName = true → env.modelPathExists modelName = true →
      env.newClient modelName = Except.ok c →
      race₂ { currentModel := some { name := modelName, client := c }, loading := none } =
        { currentModel := some m', loading := none } →
      m'.name ≠ modelName →
      (transcribeWithModel env race₁ race₂ modelName audioPath s₀).1 =
        Except.error (modelChangedMsg modelName m'.name)) := by
  refine ⟨?_, ?_, ?_⟩
  · intro n h
    rw [transcribeWithModel] at h
    dsimp only at h
    split at h
    · rename_i e s₂ tr heq
      have htr : tr = (loadPhase env modelName (needsLoadCheck modelName s₀) (race₁ s₀)).2.2 := by
        rw [heq]
      rw [loadPhase_trace] at htr
      rw [htr] at h
      split at h <;> simp_all
    · rename_i s₂ tr heq
      have htr : tr = (loadPhase env modelName (needsLoadCheck modelName s₀) (race₁ s₀)).2.2 := by
        rw [heq]
      rw [loadPhase_trace] at htr
      simp only [List.mem_append] at h
      rcases h with h | h
      · rw [htr] at h
        split at h <;> simp_all
      · cases hvi : (verifyAndInfer env modelName audioPath (race₂ s₂)).2 with
        | none => rw [hvi] at h; simp at h
        | some ev =>
            rw [hvi] at h
            simp at h
            exact verifyAndInfer_inferred env modelName audioPath (race₂ s₂) n (h ▸ hvi)
  · intro hneeds
    rw [transcribeWithModel]
    dsimp only
    split
    · rename_i e s₂ tr heq
      have htr : tr = (loadPhase env modelName (needsLoadCheck modelName s₀) (race₁ s₀)).2.2 := by
        rw [heq]
      rw [loadPhase_trace, if_pos hneeds] at htr
      simp [htr]
    · rename_i s₂ tr heq
      have htr : tr = (loadPhase env modelName (needsLoadCheck modelName s₀) (race₁ s₀)).2.2 := by
        rw [heq]
      rw [loadPhase_trace, if_pos hneeds] at htr
      simp [htr]
  · intro c m' h1 h2 h3 h4 h5 h6 h7 h8
    simp [transcribeWithModel, loadPhase, needsLoadCheck, loadModelSync, verifyAndInfer,
      h1, h2, h3, h4, h5, h6, h7, h8]

/-- Witness for C7: the S6 scenario at concrete values — load of `"m1"`
succeeds, a foreign swap installs `"m2"` before verification, and the call
returns the model-changed error. -/
theorem c7_witness :
    (transcribeWithModel loaderEnv₀ id
        (fun _ => { currentModel := some { name := "m2", client := 9 }, loading := none })
        "m1" "a.wav" { currentModel := none, loading := none }).1 =
      Except.error (modelChangedMsg "m1" "m2") :=
  (c7_transcribe_with_model loaderEnv₀ id
      (fun _ => { currentModel := some { name := "m2", client := 9 }, loading := none })
      "m1" "a.wav" { currentModel := none, loading := none }).2.2 7
    { name := "m2", client := 9 } rfl rfl rfl rfl rfl rfl rfl (by decide)

/-! ## C9: VAD framing -/

/-- The drain loop: its frames concatenate (with the remainder) back to the
buffer, every drained frame has exactly `FRAME_SAMPLES` samples, and the
remainder is shorter than a frame. -/
theorem drainFrames_spec (buf : List Sample) :
    (drainFrames buf).1.flatten ++ (drainFrames buf).2 = buf ∧
    (∀ f ∈ (drainFrames buf).1, f.length = FRAME_SAMPLES) ∧
    (drainFrames buf).2.length < FRAME_SAMPLES := by
  induction buf using drainFrames.induct with
  | case1 buf h rest ih =>
      rw [drainFrames]
      simp only [dif_pos h]
      obtain ⟨ihjoin, ihframes, ihrest⟩ := ih
      refine ⟨?_, ?_, ?_⟩
      · simp only [List.flatten_cons, List.append_assoc]
        rw [ihjoin]
        exact List.take_append_drop FRAME_SAMPLES buf
      · intro f hf
        cases hf with
        | head => simp [List.length_take, h]
        | tail _ hf' => exact ihframes _ hf'
      · exact ihrest
  | case2 buf h =>
      rw [drainFrames]
      simp only [dif_neg h]
      refine ⟨by simp, by simp, by omega⟩

/-- Invariant of the delivery fold: frames stay `FRAME_SAMPLES`-sized, the
remainder stays below a frame, and frames-plus-remainder is exactly the
accumulated input stream. -/
theorem processLoop_spec (ds : List (List Sample))
    (acc : List (List Sample) × List Sample)
    (hframes : ∀ f ∈ acc.1, f.length = FRAME_SAMPLES)
    (hrem : acc.2.length < FRAME_SAMPLES) :
    (ds.foldl (fun acc d =>
        let r := processDelivery acc.2 d
        (acc.1 ++ r.1, r.2)) acc).1.flatten ++
      (ds.foldl (fun acc d =>
        let r := processDelivery acc.2 d
        (acc.1 ++ r.1, r.2)) acc).2 = acc.1.flatten ++ acc.2 ++ ds.flatten ∧
    (∀ f ∈ (ds.foldl (fun acc d =>
        let r := processDelivery acc.2 d
        (acc.1 ++ r.1, r.2)) acc).1, f.length = FRAME_SAMPLES) ∧
    (ds.foldl (fun acc d =>
        let r := processDelivery acc.2 d
        (acc.1 ++ r.1, r.2)) acc).2.length < FRAME_SAMPLES := by
  induction ds generalizing acc with
  | nil => exact ⟨by simp, hframes, hrem⟩
  | cons d rest ih =>
      simp only [List.foldl_cons]
      have hdjoin : (processDelivery acc.2 d).1.flatten ++ (processDelivery acc.2 d).2
          = acc.2 ++ d := (drainFrames_spec (acc.2 ++ d)).1
      have hdframes : ∀ f ∈ (processDelivery acc.2 d).1, f.length = FRAME_SAMPLES :=
        (drainFrames_spec (acc.2 ++ d)).2.1
      have hdrem : (processDelivery acc.2 d).2.length < FRAME_SAMPLES :=
        (drainFrames_spec (acc.2 ++ d)).2.2
      have hstep : ∀ f ∈ acc.1 ++ (processDelivery acc.2 d).1, f.length = FRAME_SAMPLES := by
        intro f hf
        rcases List.mem_append.mp hf with hf | hf
        · exact hframes f hf
        · exact hdframes f hf
      obtain ⟨ihjoin, ihframes, ihrem⟩ :=
        ih (acc.1 ++ (processDelivery acc.2 d).1, (processDelivery acc.2 d).2) hstep hdrem
      refine ⟨?_, ihframes, ihrem⟩
      rw [ihjoin]
      simp only [List.flatten_append, List.flatten_cons, List.append_assoc]
      rw [← List.append_assoc ((processDelivery acc.2 d).1.flatten)
            ((processDelivery acc.2 d).2) rest.flatten, hdjoin]
      simp [List.append_assoc]

/-- Claim C9: for any sequence of deliveries totaling `N` mono post-resample
samples, the number of frames pushed to the detector is `⌊N/512⌋`, each pushed
frame has exactly 512 samples, the remaining `N mod 512` samples stay
buffered, and the frames followed by the buffer reproduce the input stream in
order (the remainder is prepended to the next delivery by construction of
`processDelivery`). -/
theorem c9_vad_framing (deliveries : List (List Sample)) :
    (∀ f ∈ (processDeliveries deliveries).1, f.length = FRAME_SAMPLES) ∧
    (processDeliveries deliveries).1.length =
      (deliveries.map List.length).sum / FRAME_SAMPLES ∧
    (processDeliveries deliveries).2.length =
      (deliveries.map List.length).sum % FRAME_SAMPLES ∧
    (processDeliveries deliveries).1.flatten ++ (processDeliveries deliveries).2 =
      deliveries.flatten := by
  obtain ⟨hjoin₀, hframes₀, hrem₀⟩ :=
    processLoop_spec deliveries ([], []) (by simp) (by norm_num [FRAME_SAMPLES])
  have hframes : ∀ f ∈ (processDeliveries deliveries).1, f.length = FRAME_SAMPLES := hframes₀
  have hrem : (processDeliveries deliveries).2.length < FRAME_SAMPLES := hrem₀
  have hjoin' : (processDeliveries deliveries).1.flatten ++ (processDeliveries deliveries).2
      = deliveries.flatten := by
    rw [processDeliveries, hjoin₀]
    simp
  have hlenframes : (processDeliveries deliveries).1.flatten.length =
      FRAME_SAMPLES * (processDeliveries deliveries).1.length := by
    have hmap : (processDeliveries deliveries).1.map List.length =
        List.replicate ((processDeliveries deliveries).1.map List.length).length
          FRAME_SAMPLES := by
      apply List.eq_replicate_of_mem
      intro b hb
      rcases List.mem_map.mp hb with ⟨f, hf, hfb⟩
      rw [← hfb]
      exact hframes f hf
    rw [List.length_map] at hmap
    rw [List.length_flatten, hmap]
    simp [List.sum_replicate, smul_eq_mul, Nat.mul_comm]
  have hlen : FRAME_SAMPLES * (processDeliveries deliveries).1.length +
      (processDeliveries deliveries).2.length = (deliveries.map List.length).sum := by
    have hcong := congrArg List.length hjoin'
    simp only [List.length_append] at hcong
    rw [hlenframes] at hcong
    rw [List.length_flatten] at hcong
    exact hcong
  refine ⟨hframes, ?_, ?_, hjoin'⟩
  · have h512 : FRAME_SAMPLES = 512 := rfl
    rw [h512] at hlen hrem ⊢
    omega
  · have h512 : FRAME_SAMPLES = 512 := rfl
    rw [h512] at hlen hrem ⊢
    omega

/-- Witness for C9: two deliveries of 300 samples each (600 total) produce
exactly one 512-sample frame and leave 88 samples buffered. -/
theorem c9_witness :
    (processDeliveries [List.replicate 300 (0 : Sample), List.replicate 300 0]).1.length = 1 ∧
    (processDeliveries [List.replicate 300 (0 : Sample), List.replicate 300 0]).2.length = 88 := by
  have h := c9_vad_framing [List.replicate 300 (0 : Sample), List.replicate 300 0]
  constructor
  · rw [h.2.1]
    norm_num [FRAME_SAMPLES]
  · rw [h.2.2.1]
    norm_num [FRAME_SAMPLES]

end Dictara
